import Mathlib

/-!
Verification development for the deterministic tick simulation engine of a
multiplayer arena/building game (TypeScript source).  The engine is shallowly
embedded: JavaScript numbers are modelled by rationals, mutation is modelled by
explicit state passing, the seeded xorshift32 PRNG is modelled as an explicit
32-bit state threaded through every operation, and fallible operations return
Option or an explicit success flag.

Modelling conventions, stated once here and referenced below:
* JS binary64 arithmetic is modelled over the rationals.  Every concrete
  evaluation performed in the theorems below only exercises arithmetic that is
  exact in binary64 as well (small integers, halves, twentieths), or reaches a
  conclusion (an inequality between values about 0.1 apart) that is insensitive
  to binary64 rounding.
* Math.sqrt is modelled by sqrtQ, which is exact on rationals with exact
  rational square roots (the only inputs reached by the concrete evaluations
  below) and otherwise a floor-style approximation; comparisons performed on
  approximated values in the evaluations below have slack far above the
  approximation error.  Math.cos and Math.sin are modelled by Taylor
  approximations; no theorem below depends on their values.
* JS bitwise operators coerce to 32-bit integers; PRNG state is represented by
  its unsigned 32-bit bit pattern (a natural number below 2^32).  The source
  stores the signed reinterpretation, a bijective re-coding that preserves all
  equalities and is invisible to every operation modelled here.
-/

attribute [local semireducible] Rat.add Rat.mul Rat.sub Rat.inv

/-- JS Math.sign restricted to rationals: -1, 0 or 1. -/
def jsSign (q : ℚ) : ℚ :=
  if q > 0 then 1 else if q < 0 then -1 else 0

/-- JS Math.round: round half toward positive infinity. -/
def jsRound (q : ℚ) : Int :=
  Int.floor (q + 1/2)

/-- JS Math.floor. -/
def jsFloor (q : ℚ) : Int :=
  Int.floor q

/-- Fuel-driven binary search for the integer square root, structurally
recursive so that concrete evaluations reduce in the kernel; the invariant is
lo * lo ≤ n < hi * hi. -/
def sqrtSearch (n : Nat) : Nat → Nat → Nat → Nat
  | 0, lo, _ => lo
  | fuel + 1, lo, hi =>
    if hi ≤ lo + 1 then lo
    else
      let mid := (lo + hi) / 2
      if mid * mid ≤ n then sqrtSearch n fuel mid hi
      else sqrtSearch n fuel lo mid

/-- Floor integer square root (agrees with Nat.sqrt; 64 halvings cover every
value reached here). -/
def natSqrt (n : Nat) : Nat :=
  sqrtSearch n 64 0 (n + 1)

/-- Model of Math.sqrt on nonnegative rationals: exact when the argument has an
exact rational square root, otherwise a floor-style rational approximation.
Negative arguments (NaN in JS) are unreachable in the embedded code paths. -/
def sqrtQ (q : ℚ) : ℚ :=
  if q ≤ 0 then 0 else (natSqrt (q.num.toNat * q.den) : ℚ) / (q.den : ℚ)

/-- Model of Math.cos (truncated Taylor series; no theorem depends on its values). -/
def cosQ (x : ℚ) : ℚ :=
  1 - x^2/2 + x^4/24 - x^6/720

/-- Model of Math.sin (truncated Taylor series; no theorem depends on its values). -/
def sinQ (x : ℚ) : ℚ :=
  x - x^3/6 + x^5/120

/-- JS expression (o || d) for an optional numeric field: undefined and 0 are
falsy, any other number is returned unchanged. -/
def qOr (o : Option ℚ) (d : ℚ) : ℚ :=
  match o with
  | some v => if v = 0 then d else v
  | none => d

/-- Truthiness of an optional boolean field: undefined is falsy. -/
def bOr (o : Option Bool) : Bool :=
  o.getD false

/-- Unsigned 32-bit bit pattern of an integer (JS ToUint32 on integral values). -/
def norm32 (i : Int) : Nat :=
  (i % 4294967296).toNat

/-- Signed reinterpretation of a 32-bit pattern (JS ToInt32 result). -/
def toSigned32 (p : Nat) : Int :=
  if p % 4294967296 < 2147483648 then (p % 4294967296 : Int)
  else (p % 4294967296 : Int) - 4294967296

/-- JS 32-bit left shift on an integer value (result signed). -/
def jsShl32 (i : Int) (k : Nat) : Int :=
  toSigned32 (norm32 i * 2 ^ k)

/-- JS 32-bit xor on integer values (result signed). -/
def jsXor32 (a b : Int) : Int :=
  toSigned32 (Nat.xor (norm32 a) (norm32 b))

/-- One xorshift32 step on the unsigned 32-bit state pattern, exactly the three
shift-xor lines of PRNG.next (shift-13 left, shift-17 unsigned right, shift-5
left); the returned pattern is both the produced unsigned value and the new
internal state. -/
def xs32 (s : Nat) : Nat :=
  let p := s % 4294967296
  let a := Nat.xor p (p * 8192 % 4294967296)
  let b := Nat.xor a (a / 131072)
  Nat.xor b (b * 32 % 4294967296)

/-- PRNG construction: (seed || 0x12345678); a zero or absent seed falls back to
the fixed nonzero default. -/
def prngCreate (seed : Option Nat) : Nat :=
  match seed with
  | some s => if s = 0 then 0x12345678 else s
  | none => 0x12345678

/-- PRNG.next as an explicit state transformer: returns the produced unsigned
32-bit value together with the advanced state. -/
def prngNext (s : Nat) : Nat × Nat :=
  (xs32 s, xs32 s)

/-- PRNG.nextFloat: the next unsigned value divided by 0xffffffff. -/
def prngNextFloat (s : Nat) : ℚ × Nat :=
  ((xs32 s : ℚ) / 4294967295, xs32 s)

/-- PRNG.nextInt(min,max): min + floor(nextFloat * (max - min + 1)). -/
def prngNextInt (lo hi : Int) (s : Nat) : Int × Nat :=
  let f := prngNextFloat s
  (lo + jsFloor (f.1 * ((hi : ℚ) - (lo : ℚ) + 1)), f.2)

/-- Weapon categories from weapon/types.ts. -/
inductive WeaponType where
  | AR | Shotgun | Sniper | SMG | Pickaxe
deriving DecidableEq, Repr

/-- Immutable per-weapon static data (WeaponStat in weapon/types.ts). -/
structure WeaponStat where
  damage : ℚ
  rpm : ℚ
  spread : ℚ
  projectileSpeed : ℚ
  pellets : Nat
  range : ℚ
  headshotMultiplier : ℚ
  ammoPerShot : Int
  magazineSize : Int
  reloadTime : Int
deriving DecidableEq, Repr

/-- WeaponConfig in weapon/types.ts. -/
structure WeaponConfig where
  id : String
  type : WeaponType
  stats : WeaponStat
deriving DecidableEq, Repr

/-- The WEAPON_CONFIGS table; lookup of an unknown id is None (the source throws
there, which no embedded code path reaches with the known loadouts). -/
def WEAPON_CONFIGS (id : String) : Option WeaponConfig :=
  if id = "ar_standard" then
    some ⟨"ar_standard", WeaponType.AR, ⟨25, 600, 1/20, 50, 1, 100, 3/2, 1, 30, 60⟩⟩
  else if id = "shotgun_pump" then
    some ⟨"shotgun_pump", WeaponType.Shotgun, ⟨20, 70, 3/20, 40, 8, 20, 5/4, 1, 6, 80⟩⟩
  else if id = "sniper_bolt" then
    some ⟨"sniper_bolt", WeaponType.Sniper, ⟨100, 40, 1/100, 80, 1, 200, 2, 1, 5, 100⟩⟩
  else if id = "smg_compact" then
    some ⟨"smg_compact", WeaponType.SMG, ⟨15, 900, 2/25, 45, 1, 50, 13/10, 1, 25, 50⟩⟩
  else if id = "pickaxe_standard" then
    some ⟨"pickaxe_standard", WeaponType.Pickaxe, ⟨75, 60, 1/5, 0, 1, 2, 1, 0, 0, 0⟩⟩
  else none

/-- Per-player mutable weapon runtime data (WeaponState in weapon/types.ts). -/
structure WeaponState where
  weaponId : String
  currentAmmo : Int
  isReloading : Bool
  reloadTicksRemaining : Int
deriving DecidableEq, Repr

/-- InventoryState in player/inventory.ts; reserveAmmo is a JS record modelled
as an insertion-ordered association list. -/
structure InventoryState where
  weapons : List WeaponState
  activeWeaponSlot : Nat
  reserveAmmo : List (String × Int)
deriving DecidableEq, Repr

/-- Lookup in the reserveAmmo record with the source's (x || 0) default. -/
def reserveLookup (ammo : List (String × Int)) (id : String) : Int :=
  match ammo.find? (fun p => p.1 = id) with
  | some p => p.2
  | none => 0

/-- JS record assignment: overwrite in place if the key exists, else append. -/
def recordSet (ammo : List (String × Int)) (id : String) (v : Int) :
    List (String × Int) :=
  if ammo.any (fun p => p.1 = id) then
    ammo.map (fun p => if p.1 = id then (p.1, v) else p)
  else ammo ++ [(id, v)]

/-- createDefaultInventory: pickaxe plus an AR with 30/90 ammo, pickaxe active. -/
def createDefaultInventory : InventoryState :=
  ⟨[⟨"pickaxe_standard", 0, false, 0⟩, ⟨"ar_standard", 30, false, 0⟩], 0,
    [("ar_standard", 90)]⟩

/-- getActiveWeapon; None models the out-of-range access the source would crash
on (never reached with the loadouts used here). -/
def getActiveWeapon (inv : InventoryState) : Option WeaponState :=
  inv.weapons.get? inv.activeWeaponSlot

/-- canFireWeapon from player/inventory.ts. -/
def canFireWeapon (inv : InventoryState) : Bool :=
  match getActiveWeapon inv with
  | none => false
  | some w =>
    match WEAPON_CONFIGS w.weaponId with
    | none => false
    | some c =>
      if w.isReloading then false
      else if c.stats.ammoPerShot = 0 then true
      else w.currentAmmo ≥ c.stats.ammoPerShot

/-- fireWeapon: decrement magazine ammo of the active weapon by ammoPerShot. -/
def fireWeapon (inv : InventoryState) : InventoryState :=
  match getActiveWeapon inv with
  | none => inv
  | some w =>
    match WEAPON_CONFIGS w.weaponId with
    | none => inv
    | some c =>
      if canFireWeapon inv then
        { inv with weapons := inv.weapons.set inv.activeWeaponSlot
                        ({ w with currentAmmo := w.currentAmmo - c.stats.ammoPerShot }) }
      else inv

/-- startReload from player/inventory.ts. -/
def startReload (inv : InventoryState) : InventoryState :=
  match getActiveWeapon inv with
  | none => inv
  | some w =>
    match WEAPON_CONFIGS w.weaponId with
    | none => inv
    | some c =>
      if w.isReloading ∨ w.currentAmmo = c.stats.magazineSize then inv
      else if reserveLookup inv.reserveAmmo w.weaponId ≤ 0 then inv
      else
        { inv with weapons := inv.weapons.set inv.activeWeaponSlot
                        ({ w with isReloading := true,
                                  reloadTicksRemaining := c.stats.reloadTime }) }

/-- updateReload from player/inventory.ts: decrements the active weapon's
countdown; on completion moves min(needed, reserve) from reserve to magazine. -/
def updateReload (inv : InventoryState) : InventoryState :=
  match getActiveWeapon inv with
  | none => inv
  | some w =>
    if ¬ w.isReloading then inv
    else
      let newTicks := w.reloadTicksRemaining - 1
      if newTicks ≤ 0 then
        match WEAPON_CONFIGS w.weaponId with
        | none => inv
        | some c =>
          let reserve := reserveLookup inv.reserveAmmo w.weaponId
          let needed := c.stats.magazineSize - w.currentAmmo
          let toAdd := min needed reserve
          { inv with
            weapons := inv.weapons.set inv.activeWeaponSlot
                         ({ w with currentAmmo := w.currentAmmo + toAdd,
                                   isReloading := false, reloadTicksRemaining := 0 }),
            reserveAmmo := recordSet inv.reserveAmmo w.weaponId (reserve - toAdd) }
      else
        { inv with weapons := inv.weapons.set inv.activeWeaponSlot
                        ({ w with reloadTicksRemaining := newTicks }) }

/-- Entity type tag from state.ts. -/
inductive EntityType where
  | player | bullet | build_piece | item
deriving DecidableEq, Repr

/-- The JSON string of an entity type tag. -/
def etypeStr : EntityType → String
  | EntityType.player => "player"
  | EntityType.bullet => "bullet"
  | EntityType.build_piece => "build_piece"
  | EntityType.item => "item"

/-- Per-player jump bookkeeping (jumpState in state.ts). -/
structure JumpState where
  jumpStartTick : Option Int := none
  jumpVel : Option ℚ := none
deriving DecidableEq, Repr

/-- Entity from state.ts: the tagged union with all optional fields explicit,
so that JS truthiness on absent fields is modelled faithfully. -/
structure Entity where
  id : String
  type : EntityType
  x : ℚ
  y : ℚ
  w : ℚ
  h : ℚ
  vx : ℚ
  vy : ℚ
  hp : ℚ
  lifetime : Option ℚ := none
  owner : Option String := none
  inventory : Option InventoryState := none
  material : Option String := none
  buildType : Option String := none
  rot : Option ℚ := none
  editState : Option Int := none
  itemType : Option String := none
  respawnTime : Option ℚ := none
  team : Option Int := none
  isCrouching : Option Bool := none
  isSprinting : Option Bool := none
  onGround : Option Bool := none
  jumpState : Option JumpState := none
  fallStartY : Option ℚ := none
  movementMomentum : Option ℚ := none
  maxWalkSpeed : Option ℚ := none
  walkAccel : Option ℚ := none
  airControlFactor : Option ℚ := none
  crouchSpeedMultiplier : Option ℚ := none
  sprintSpeedMultiplier : Option ℚ := none
deriving DecidableEq, Repr

/-- Input from state.ts. -/
structure Input where
  seq : Int
  clientId : String
  dx : ℚ
  dy : ℚ
  shoot : Option Bool := none
  jump : Option Bool := none
  crouch : Option Bool := none
  sprint : Option Bool := none
deriving DecidableEq, Repr

/-- A JS record mapping clientId to Input, as an insertion-ordered list. -/
abbrev InputMap := List (String × Input)

/-- State from state.ts. -/
structure State where
  tick : Int
  entities : List Entity
  rng : Option Nat := none
  lastChecksum : Option String := none
deriving DecidableEq, Repr

/-- createState(startTick, seed). -/
def createState (startTick : Int) (seed : Option Nat) : State :=
  { tick := startTick, entities := [], rng := seed }

/-- createPlayer(id,x,y) from state.ts. -/
def createPlayer (id : String) (x y : ℚ) : Entity :=
  { id := id, type := EntityType.player, x := x, y := y, w := 1, h := 9/5,
    vx := 0, vy := 0, hp := 100,
    inventory := some createDefaultInventory,
    isCrouching := some false, isSprinting := some false,
    onGround := some true, jumpState := some {},
    movementMomentum := some 0, maxWalkSpeed := some 5, walkAccel := some 20,
    airControlFactor := some (3/10), crouchSpeedMultiplier := some (1/2),
    sprintSpeedMultiplier := some (9/5) }

/-- createBullet from state.ts. -/
def createBullet (id owner : String) (x y vx vy : ℚ) (lifetime : ℚ := 60) :
    Entity :=
  { id := id, type := EntityType.bullet, owner := some owner, x := x, y := y,
    w := 1/5, h := 1/5, vx := vx, vy := vy, hp := 1, lifetime := some lifetime }

/-- One serialized entity record, with exactly the fields serializeSnapshot
writes (team, itemType and respawnTime are not among them).  Structural
equality of two Snapshot values coincides with byte equality of the JSON texts
JSON.stringify produces for them, since the writer emits fields in a fixed
order and number serialization is injective. -/
structure SnapEntity where
  id : String
  type : EntityType
  x : ℚ
  y : ℚ
  w : ℚ
  h : ℚ
  vx : ℚ
  vy : ℚ
  hp : ℚ
  lifetime : Option ℚ
  owner : Option String
  inventory : Option InventoryState
  material : Option String
  buildType : Option String
  rot : Option ℚ
  editState : Option Int
  isCrouching : Option Bool
  isSprinting : Option Bool
  onGround : Option Bool
  jumpState : Option JumpState
  fallStartY : Option ℚ
  movementMomentum : Option ℚ
  maxWalkSpeed : Option ℚ
  walkAccel : Option ℚ
  airControlFactor : Option ℚ
  crouchSpeedMultiplier : Option ℚ
  sprintSpeedMultiplier : Option ℚ
deriving DecidableEq, Repr

/-- The compact snapshot value produced by serializeSnapshot. -/
structure Snapshot where
  tick : Int
  entities : List SnapEntity
deriving DecidableEq, Repr

/-- The per-entity projection inside serializeSnapshot: exactly the snapshot
field list (team, itemType and respawnTime are dropped here). -/
def serializeEntity (e : Entity) : SnapEntity :=
  { id := e.id, type := e.type, x := e.x, y := e.y, w := e.w, h := e.h,
    vx := e.vx, vy := e.vy, hp := e.hp, lifetime := e.lifetime,
    owner := e.owner, inventory := e.inventory, material := e.material,
    buildType := e.buildType, rot := e.rot, editState := e.editState,
    isCrouching := e.isCrouching, isSprinting := e.isSprinting,
    onGround := e.onGround, jumpState := e.jumpState,
    fallStartY := e.fallStartY, movementMomentum := e.movementMomentum,
    maxWalkSpeed := e.maxWalkSpeed, walkAccel := e.walkAccel,
    airControlFactor := e.airControlFactor,
    crouchSpeedMultiplier := e.crouchSpeedMultiplier,
    sprintSpeedMultiplier := e.sprintSpeedMultiplier }

/-- serializeSnapshot from state.ts: projects each entity onto the snapshot
field list; rng and lastChecksum are not serialized. -/
def serializeSnapshot (state : State) : Snapshot :=
  { tick := state.tick, entities := state.entities.map serializeEntity }

/-- The per-record branch of deserializeSnapshot: bullets and build pieces are
rebuilt from their fields; every other record, items included, falls through
to the player branch; rot and editState get the (x || 0) default. -/
def deserializeEntity (e : SnapEntity) : Entity :=
  if e.type = EntityType.bullet then
    { id := e.id, type := EntityType.bullet, owner := e.owner,
      x := e.x, y := e.y, w := e.w, h := e.h, vx := e.vx, vy := e.vy,
      hp := e.hp, lifetime := e.lifetime }
  else if e.type = EntityType.build_piece then
    { id := e.id, type := EntityType.build_piece, owner := e.owner,
      buildType := e.buildType, material := e.material,
      x := e.x, y := e.y, w := e.w, h := e.h, vx := e.vx, vy := e.vy,
      hp := e.hp, rot := some (qOr e.rot 0),
      editState := some ((e.editState.getD 0)) }
  else
    { id := e.id, type := EntityType.player,
      x := e.x, y := e.y, w := e.w, h := e.h, vx := e.vx, vy := e.vy,
      hp := e.hp, inventory := e.inventory,
      isCrouching := e.isCrouching, isSprinting := e.isSprinting,
      onGround := e.onGround, jumpState := e.jumpState,
      fallStartY := e.fallStartY, movementMomentum := e.movementMomentum,
      maxWalkSpeed := e.maxWalkSpeed, walkAccel := e.walkAccel,
      airControlFactor := e.airControlFactor,
      crouchSpeedMultiplier := e.crouchSpeedMultiplier,
      sprintSpeedMultiplier := e.sprintSpeedMultiplier }

/-- deserializeSnapshot from state.ts. -/
def deserializeSnapshot (snap : Snapshot) : State :=
  { tick := snap.tick, entities := snap.entities.map deserializeEntity }

/-- cloneState from state.ts: per-entity shallow copy; on immutable values the
clone is the identity. -/
def cloneState (state : State) : State :=
  { tick := state.tick, entities := state.entities.map (fun e => e),
    rng := state.rng, lastChecksum := state.lastChecksum }

/-- Replace the first entity satisfying the predicate (the JS find-and-mutate
pattern); no-op when nothing matches. -/
def updateFirst (p : Entity → Bool) (f : Entity → Entity) :
    List Entity → List Entity
  | [] => []
  | e :: rest => if p e then f e :: rest else e :: updateFirst p f rest

/-- applyInputsShallow from state.ts: sets each addressed player's velocity
from its input and integrates position, then advances bullets and expires
those whose lifetime countdown has run out. -/
def applyInputsShallow (state : State) (inputs : InputMap) (dt : ℚ) : State :=
  let afterPlayers :=
    inputs.foldl (fun es (p : String × Input) =>
      updateFirst (fun e => e.id = p.1 ∧ e.type = EntityType.player)
        (fun e =>
          let vx := p.2.dx
          let vy := p.2.dy
          { e with vx := vx, vy := vy, x := e.x + vx * dt, y := e.y + vy * dt })
        es)
      (cloneState state).entities
  let afterBullets := afterPlayers.filterMap (fun e =>
    if e.type = EntityType.bullet then
      let e' := { e with x := e.x + e.vx * dt, y := e.y + e.vy * dt }
      match e'.lifetime with
      | some l => if l - 1 ≤ 0 then none else some { e' with lifetime := some (l - 1) }
      | none => some e'
    else some e)
  { tick := state.tick + 1, entities := afterBullets,
    rng := state.rng, lastChecksum := state.lastChecksum }

/-- reconcile from state.ts: deserialize the snapshot, then re-apply each
buffered input map through applyInputsShallow with dt = 1/tickRate. -/
def reconcile (snap : Snapshot) (bufferedInputs : List InputMap)
    (tickRate : ℚ := 20) : State :=
  let dt := 1 / tickRate
  bufferedInputs.foldl (fun st inputs => applyInputsShallow st inputs dt)
    (deserializeSnapshot snap)

/-- A quantized entity record produced inside createQuantizedSnapshot, holding
exactly the fields that function projects out. -/
structure QEntity where
  id : String
  type : String
  x : Int
  y : Int
  vx : Int
  vy : Int
  hp : Int
  w : Int
  h : Int
  lifetime : Option Int
  owner : Option String
  material : Option String
  buildType : Option String
  rot : Option Int
  editState : Option Int
deriving DecidableEq, Repr

/-- quantizeValue: multiply by 1000 and round to integer. -/
def quantizeValue (v : ℚ) : Int :=
  jsRound (v * 1000)

/-- The per-entity projection inside createQuantizedSnapshot.  The source
guards lifetime by JS truthiness (so a zero lifetime is dropped) and rot by an
explicit undefined check (so a zero rotation is kept). -/
def quantizeEntity (e : Entity) : QEntity :=
  { id := e.id, type := etypeStr e.type,
    x := quantizeValue e.x, y := quantizeValue e.y,
    vx := quantizeValue e.vx, vy := quantizeValue e.vy,
    hp := quantizeValue e.hp, w := quantizeValue e.w, h := quantizeValue e.h,
    lifetime := match e.lifetime with
      | some l => if l = 0 then none else some (quantizeValue l)
      | none => none,
    owner := e.owner, material := e.material, buildType := e.buildType,
    rot := e.rot.map quantizeValue, editState := e.editState }

/-- Comparison used to sort quantized entities by id.  The source sorts with
localeCompare; on the plain ASCII identifiers used throughout the repository
this agrees with lexicographic codepoint order. -/
def qentLe (a b : QEntity) : Prop := a.id ≤ b.id

instance : DecidableRel qentLe := fun a b => by
  unfold qentLe; infer_instance

/-- createQuantizedSnapshot: quantize every entity, then sort by id. -/
def createQuantizedSnapshot (entities : List Entity) : List QEntity :=
  List.insertionSort qentLe (entities.map quantizeEntity)

/-- JSON string literal for the escape-free identifiers used here. -/
def jstr (s : String) : String := "\"" ++ s ++ "\""

/-- Render one present field of the canonical JSON object. -/
def jfield (k : String) (v : String) : String := jstr k ++ ":" ++ v

/-- The canonical JSON text of a quantized entity: object keys sorted
alphabetically (the replacer in hashState), properties with undefined values
dropped (JSON.stringify).  Sorted key order: buildType, editState, h, hp, id,
lifetime, material, owner, rot, type, vx, vy, w, x, y. -/
def canonQEntity (q : QEntity) : String :=
  let fields : List (Option String) :=
    [ q.buildType.map (fun v => jfield "buildType" (jstr v)),
      q.editState.map (fun v => jfield "editState" (toString v)),
      some (jfield "h" (toString q.h)),
      some (jfield "hp" (toString q.hp)),
      some (jfield "id" (jstr q.id)),
      q.lifetime.map (fun v => jfield "lifetime" (toString v)),
      q.material.map (fun v => jfield "material" (jstr v)),
      q.owner.map (fun v => jfield "owner" (jstr v)),
      q.rot.map (fun v => jfield "rot" (toString v)),
      some (jfield "type" (jstr q.type)),
      some (jfield "vx" (toString q.vx)),
      some (jfield "vy" (toString q.vy)),
      some (jfield "w" (toString q.w)),
      some (jfield "x" (toString q.x)),
      some (jfield "y" (toString q.y)) ]
  "\x7b" ++ String.intercalate "," (fields.filterMap (fun o => o)) ++ "\x7d"

/-- The canonical JSON text hashState receives from computeStateChecksum: the
object with keys entities, rng (dropped when undefined), tick, in sorted
order. -/
def canonChecksumInput (tick : Int) (ents : List QEntity) (rng : Option Nat) :
    String :=
  "\x7b" ++ jfield "entities" ("[" ++ String.intercalate "," (ents.map canonQEntity) ++ "]")
      ++ (match rng with
          | some r => "," ++ jfield "rng" (toString r)
          | none => "")
      ++ "," ++ jfield "tick" (toString tick) ++ "\x7d"

/-- One step of the FNV-1a variant in hash.ts.  The xor and the shifts coerce
to signed 32-bit integers; the sum itself is ordinary JS float addition, exact
at these magnitudes, so the accumulator is an unbounded integer between
steps. -/
def fnvStep (h : Int) (c : Char) : Int :=
  let h1 := jsXor32 h (Int.ofNat c.toNat)
  h1 + jsShl32 h1 1 + jsShl32 h1 4 + jsShl32 h1 7 + jsShl32 h1 8 + jsShl32 h1 24

/-- The loop of fnv1aHash: the mutable hash accumulator is threaded through a
recursion that forces it to an integer at every step (matching on the Int
constructor), exactly the strict left-to-right loop of the source. -/
def fnvFold : List Char → Int → Int
  | [], h => h
  | c :: cs, h =>
    match fnvStep h c with
    | Int.ofNat n => fnvFold cs (Int.ofNat n)
    | Int.negSucc n => fnvFold cs (Int.negSucc n)

/-- fnv1aHash from hash.ts: fold the step over the character codes starting
from 0x811c9dc5 and take the final value as an unsigned 32-bit integer. -/
def fnv1aHash (s : String) : Nat :=
  norm32 (fnvFold s.data 0x811c9dc5)

/-- JS Number.prototype.toString(16) on an unsigned integer. -/
def hexString (n : Nat) : String :=
  String.mk (Nat.toDigits 16 n)

/-- computeStateChecksum from hash.ts: quantize and sort the entities, build
the canonical sorted-key JSON text of tick/entities/rng, hash it with the
FNV-1a variant, and render the hash in lowercase hex. -/
def computeStateChecksum (state : State) : String :=
  hexString (fnv1aHash
    (canonChecksumInput state.tick (createQuantizedSnapshot state.entities)
      state.rng))

/-- applyGroundMovement from player/movement.ts: accelerate toward the
input-derived target velocity at a capped rate, then apply linear friction
when there is no input, then record momentum.  The prng parameter is accepted
and unused, exactly as in the source. -/
def applyGroundMovement (e : Entity) (input : Input) (dt : ℚ) (prng : Nat) :
    Entity :=
  if ¬ bOr e.onGround then e else
  let maxSpeed := qOr e.maxWalkSpeed 5
  let accel := qOr e.walkAccel 20
  let speedMultiplier :=
    (if bOr e.isCrouching then qOr e.crouchSpeedMultiplier (1/2) else 1) *
    (if bOr e.isSprinting ∧ ¬ bOr e.isCrouching then
       qOr e.sprintSpeedMultiplier (9/5) else 1)
  let targetSpeed := maxSpeed * speedMultiplier
  let inputMagnitude := sqrtQ (input.dx * input.dx + input.dy * input.dy)
  let desiredVx := if inputMagnitude > 0 then input.dx / inputMagnitude * targetSpeed else 0
  let desiredVy := if inputMagnitude > 0 then input.dy / inputMagnitude * targetSpeed else 0
  let dvx := desiredVx - e.vx
  let dvy := desiredVy - e.vy
  let vx1 := e.vx + jsSign dvx * min |dvx| (accel * dt)
  let vy1 := e.vy + jsSign dvy * min |dvy| (accel * dt)
  let frictionForce := 15 * dt
  let vx2 := if inputMagnitude = 0 then
      (if |vx1| < frictionForce then 0 else vx1 - jsSign vx1 * frictionForce)
    else vx1
  let vy2 := if inputMagnitude = 0 then
      (if |vy1| < frictionForce then 0 else vy1 - jsSign vy1 * frictionForce)
    else vy1
  { e with vx := vx2, vy := vy2,
           movementMomentum := some (sqrtQ (vx2 * vx2 + vy2 * vy2)) }

/-- applyAirMovement from player/movement.ts: acceleration scaled by the air
control factor, then multiplicative air resistance. -/
def applyAirMovement (e : Entity) (input : Input) (dt : ℚ) : Entity :=
  if bOr e.onGround then e else
  let maxSpeed := qOr e.maxWalkSpeed 5
  let airControl := qOr e.airControlFactor (3/10)
  let accel := qOr e.walkAccel 20 * airControl
  let inputMagnitude := sqrtQ (input.dx * input.dx + input.dy * input.dy)
  let desiredVx := if inputMagnitude > 0 then input.dx / inputMagnitude * maxSpeed else 0
  let desiredVy := if inputMagnitude > 0 then input.dy / inputMagnitude * maxSpeed else 0
  let dvx := desiredVx - e.vx
  let dvy := desiredVy - e.vy
  let vx1 := e.vx + jsSign dvx * min |dvx| (accel * dt)
  let vy1 := e.vy + jsSign dvy * min |dvy| (accel * dt)
  let resistance := 2 * dt
  { e with vx := vx1 * max 0 (1 - resistance), vy := vy1 * max 0 (1 - resistance) }

/-- jump from player/movement.ts: only on ground with the jump input pressed,
idempotent against a duplicate jump on the same world tick; sets the vertical
impulse, clears onGround, and records the fall start height. -/
def jump (e : Entity) (input : Input) (worldTick : Int) : Entity :=
  if ¬ bOr e.onGround ∨ ¬ bOr input.jump then e
  else if (e.jumpState.bind (fun j => j.jumpStartTick)) = some worldTick then e
  else
    { e with vy := 8, onGround := some false,
             jumpState := some { jumpStartTick := some worldTick, jumpVel := some 8 },
             fallStartY := some e.y }

/-- AABB type from physics/aabb.ts. -/
structure AABB where
  x : ℚ
  y : ℚ
  w : ℚ
  h : ℚ
deriving DecidableEq, Repr

/-- intersects from physics/aabb.ts. -/
def intersects (a b : AABB) : Bool :=
  ¬ (a.x + a.w ≤ b.x ∨ b.x + b.w ≤ a.x ∨ a.y + a.h ≤ b.y ∨ b.y + b.h ≤ a.y)

/-- resolve from physics/aabb.ts: minimal translation vector along the axis of
smaller penetration, plus a fixed epsilon of 1e-6 in the push direction. -/
def resolve (a b : AABB) : ℚ × ℚ :=
  let ax := a.x + a.w / 2
  let ay := a.y + a.h / 2
  let bx := b.x + b.w / 2
  let by' := b.y + b.h / 2
  let dx := ax - bx
  let dy := ay - by'
  let px := (a.w + b.w) / 2 - |dx|
  let py := (a.h + b.h) / 2 - |dy|
  if px ≤ 0 ∨ py ≤ 0 then (0, 0)
  else
    let eps : ℚ := 1 / 1000000
    if px < py then
      let v := if dx > 0 then px else -px
      (v + (if v > 0 then eps else -eps), 0)
    else
      let v := if dy > 0 then py else -py
      (0, v + (if v > 0 then eps else -eps))

/-- applyGravity from player/movement.ts: integrate gravity, clamp at the
floor plane y=0, then place the entity on top of the first intersecting ground
entity it was previously above; a landing sets onGround and clears the jump
state.  The collision box is computed from the integrated position before the
floor clamp, exactly as in the source. -/
def applyGravity (e : Entity) (dt : ℚ) (groundEntities : List Entity) : Entity :=
  if bOr e.onGround then e else
  let vy1 := e.vy - 20 * dt
  let prevY := e.y
  let y1 := e.y + vy1 * dt
  let playerAABB : AABB := { x := e.x, y := y1, w := e.w, h := e.h }
  let (y2, vy2, hitFloor) := if y1 ≤ 0 then ((0 : ℚ), (0 : ℚ), true) else (y1, vy1, false)
  let step := groundEntities.foldl
    (fun (acc : ℚ × ℚ × Bool × Bool) g =>
      let (y, vy, hit, stop) := acc
      if stop then acc
      else if g.id = e.id then acc
      else if intersects playerAABB { x := g.x, y := g.y, w := g.w, h := g.h } ∧
              prevY ≥ g.y + g.h then
        (g.y + g.h, 0, true, true)
      else acc)
    (y2, vy2, hitFloor, false)
  let (yF, vyF, hitGround, _) := step
  if hitGround then
    { e with y := yF, vy := vyF, onGround := some true, jumpState := some {} }
  else
    { e with y := yF, vy := vyF }

/-- applyCrouchSlide from player/movement.ts: crouch toggling with a one-time
slide impulse when entering crouch from a grounded sprint with momentum above
3, and sprint forced off while crouching. -/
def applyCrouchSlide (e : Entity) (input : Input) (dt : ℚ) : Entity :=
  let e1 :=
    if bOr input.crouch then
      if ¬ bOr e.isCrouching then
        let e' := { e with isCrouching := some true }
        if bOr e.isSprinting ∧ bOr e.onGround ∧ qOr e.movementMomentum 0 > 3 then
          let currentSpeed := sqrtQ (e.vx * e.vx + e.vy * e.vy)
          if currentSpeed > 0 then
            { e' with vx := e.vx + e.vx / currentSpeed * 3,
                      vy := e.vy + e.vy / currentSpeed * 3 }
          else e'
        else e'
      else e
    else { e with isCrouching := some false }
  if bOr input.sprint ∧ ¬ bOr e1.isCrouching then
    { e1 with isSprinting := some true }
  else
    { e1 with isSprinting := some false }

/-- computeFallDamage from player/movement.ts: returns the damage dealt with
the updated entity; only acts when the entity is on the ground with a recorded
fall start height, which it clears; damage floor((d - 10) * 5) is applied to
hp clamped at 0 when the fall distance d exceeds 10. -/
def computeFallDamage (e : Entity) : Int × Entity :=
  if ¬ bOr e.onGround ∨ e.fallStartY = none then (0, e)
  else
    let fallDistance := (e.fallStartY.getD 0) - e.y
    let e1 := { e with fallStartY := none }
    if fallDistance ≤ 10 then (0, e1)
    else
      let damage := jsFloor ((fallDistance - 10) * 5)
      (damage, { e1 with hp := max 0 (e1.hp - (damage : ℚ)) })

/-- processEntityMovement from player/movement.ts: crouch/sprint handling,
jump, ground or air movement, gravity with ground collision, fall damage. -/
def processEntityMovement (e : Entity) (input : Input) (dt : ℚ)
    (worldTick : Int) (prng : Nat) (groundEntities : List Entity) : Entity :=
  if e.type ≠ EntityType.player then e else
  let e1 := applyCrouchSlide e input dt
  let e2 := jump e1 input worldTick
  let e3 := if bOr e2.onGround then applyGroundMovement e2 input dt prng
            else applyAirMovement e2 input dt
  let e4 := applyGravity e3 dt groundEntities
  (computeFallDamage e4).2

/-- Ordering of entities by id used by the deterministic per-tick processing;
the source sorts with localeCompare, which agrees with codepoint order on the
ASCII identifiers used in this repository. -/
def entLe (a b : Entity) : Prop := a.id ≤ b.id

instance : DecidableRel entLe := fun a b => by
  unfold entLe; infer_instance

/-- The ground-entity predicate of processMovement in sim/movement.ts. -/
def groundPred (e : Entity) : Bool :=
  e.type = EntityType.build_piece ∨
    (e.type = EntityType.player ∧ e.id ≠ "current_player")

/-- The default input substituted when a player has no input this tick. -/
def defaultInput (pid : String) : Input :=
  { seq := 0, clientId := pid, dx := 0, dy := 0, shoot := some false,
    jump := some false, crouch := some false, sprint := some false }

/-- processMovement from sim/movement.ts: players are processed in id-sorted
order; each one runs the full movement pipeline against the live entity list
(the source iterates over references, so later players observe earlier
players' updates) and then integrates position once more by its final
velocity. -/
def processMovement (state : State) (inputs : InputMap) (dt : ℚ)
    (worldTick : Int) (prng : Nat) : State :=
  let pids := (List.insertionSort entLe
    (state.entities.filter (fun e => e.type = EntityType.player))).map Entity.id
  let entities := pids.foldl (fun es pid =>
    let input := match inputs.find? (fun p => p.1 = pid) with
      | some p => p.2
      | none => defaultInput pid
    let ground := es.filter groundPred
    updateFirst (fun e => e.id = pid ∧ e.type = EntityType.player)
      (fun e =>
        let e' := processEntityMovement e input dt worldTick prng ground
        { e' with x := e'.x + e'.vx * dt, y := e'.y + e'.vy * dt })
      es) state.entities
  { state with entities := entities }

/-- A 2D point or direction. -/
structure Vec2 where
  x : ℚ
  y : ℚ
deriving DecidableEq, Repr

/-- ProjectileData from weapon/weapon.ts. -/
structure ProjectileData where
  id : String
  weaponId : String
  ownerId : String
  position : Vec2
  direction : Vec2
  speed : ℚ
  damage : ℚ
  isHitscan : Bool
  spread : ℚ
  pellets : ℚ
  range : ℚ
  headshotMultiplier : ℚ
deriving DecidableEq, Repr

/-- FireResult from weapon/weapon.ts. -/
structure FireResult where
  success : Bool
  projectiles : List ProjectileData
  ammoConsumed : Int
deriving DecidableEq, Repr

/-- canFire from weapon/weapon.ts. -/
def canFire (ws : WeaponState) (wc : WeaponConfig) : Bool :=
  if ws.isReloading then false
  else if wc.stats.ammoPerShot = 0 then true
  else ws.currentAmmo ≥ wc.stats.ammoPerShot

/-- One pellet of the shotgun branch of fire: draws a spread angle and then a
projectile id from the PRNG. -/
def firePellet (wc : WeaponConfig) (ownerId : String) (position : Vec2)
    (baseDirX baseDirY : ℚ) (s : Nat) : ProjectileData × Nat :=
  let f := prngNextFloat s
  let spreadAngle := (f.1 - 1/2) * wc.stats.spread
  let pelletDirX := baseDirX * cosQ spreadAngle - baseDirY * sinQ spreadAngle
  let pelletDirY := baseDirX * sinQ spreadAngle + baseDirY * cosQ spreadAngle
  let m := sqrtQ (pelletDirX * pelletDirX + pelletDirY * pelletDirY)
  let pelletMag := if m = 0 then 1 else m
  let r := prngNextInt 0 1000000 f.2
  (⟨"proj_" ++ ownerId ++ "_" ++ toString r.1, wc.id, ownerId, position,
    ⟨pelletDirX / pelletMag, pelletDirY / pelletMag⟩, wc.stats.projectileSpeed,
    wc.stats.damage, false, 0, 1, wc.stats.range, wc.stats.headshotMultiplier⟩,
   r.2)

/-- fire from weapon/weapon.ts: shotguns emit one perturbed projectile per
pellet, every other weapon emits a single perturbed projectile; projectile ids
are drawn from the PRNG; the isHitscan flag is set only for a non-pickaxe
weapon with zero projectile speed. -/
def fire (ws : WeaponState) (wc : WeaponConfig) (ownerId : String)
    (position : Vec2) (aimDirection : Vec2) (s : Nat) : FireResult × Nat :=
  if ¬ canFire ws wc then (⟨false, [], 0⟩, s)
  else
    let baseDirX := aimDirection.x
    let baseDirY := aimDirection.y
    if wc.type = WeaponType.Shotgun then
      let step := (List.range wc.stats.pellets).foldl
        (fun (acc : List ProjectileData × Nat) _ =>
          let p := firePellet wc ownerId position baseDirX baseDirY acc.2
          (acc.1 ++ [p.1], p.2))
        ([], s)
      (⟨true, step.1, wc.stats.ammoPerShot⟩, step.2)
    else
      let f := prngNextFloat s
      let spreadAngle := (f.1 - 1/2) * wc.stats.spread
      let finalDirX := baseDirX * cosQ spreadAngle - baseDirY * sinQ spreadAngle
      let finalDirY := baseDirX * sinQ spreadAngle + baseDirY * cosQ spreadAngle
      let m := sqrtQ (finalDirX * finalDirX + finalDirY * finalDirY)
      let finalMag := if m = 0 then 1 else m
      let r := prngNextInt 0 1000000 f.2
      (⟨true,
        [⟨"proj_" ++ ownerId ++ "_" ++ toString r.1, wc.id, ownerId, position,
          ⟨finalDirX / finalMag, finalDirY / finalMag⟩, wc.stats.projectileSpeed,
          wc.stats.damage,
          wc.type ≠ WeaponType.Pickaxe ∧ wc.stats.projectileSpeed = 0,
          wc.stats.spread, 1, wc.stats.range, wc.stats.headshotMultiplier⟩],
        wc.stats.ammoPerShot⟩,
       r.2)

/-- A live projectile (Projectile in sim/projectiles.ts). -/
structure Projectile extends ProjectileData where
  lifetime : Int
  distanceTraveled : ℚ
deriving DecidableEq, Repr

/-- createProjectile from sim/projectiles.ts: hitscan projectiles live one
tick, others 120; the prng parameter is accepted and unused as in the
source. -/
def createProjectile (pd : ProjectileData) (prng : Nat) : Projectile :=
  { pd with lifetime := if pd.isHitscan then 1 else 120, distanceTraveled := 0 }

/-- HitResult from sim/projectiles.ts. -/
structure HitResult where
  hit : Bool
  entityId : Option String := none
  damage : Option Int := none
  position : Option Vec2 := none
  isHeadshot : Option Bool := none
  distance : Option ℚ := none
deriving DecidableEq, Repr

/-- isHeadshot from sim/projectiles.ts: the tested band starts at the minimum
y of the centered bounding box (entity.y - h/2) and extends one third of the
height upward from there. -/
def isHeadshot (hitPosition : Vec2) (e : Entity) : Bool :=
  let headHeight := e.h / 3
  let headTop := e.y - e.h / 2
  let headBottom := headTop + headHeight
  hitPosition.y ≥ headTop ∧ hitPosition.y ≤ headBottom

/-- calculateDamage from sim/projectiles.ts: linear falloff beyond half range,
headshot multiplier when isHeadshot holds at the projectile position, a ±5%
jitter drawn from the PRNG, rounded and floored at 1. -/
def calculateDamage (p : Projectile) (e : Entity) (s : Nat) : Int × Nat :=
  let damage0 := p.damage
  let damage1 :=
    if p.distanceTraveled > p.range * (1/2) then
      damage0 * (1 - min 1 ((p.distanceTraveled - p.range * (1/2)) / (p.range * (1/2))))
    else damage0
  let damage2 := if isHeadshot p.position e then damage1 * p.headshotMultiplier
                 else damage1
  let f := prngNextFloat s
  let variation := 1 + (f.1 - 1/2) * (1/10)
  (max 1 (jsRound (damage2 * variation)), f.2)

/-- detectProjectileHit from sim/projectiles.ts: first entity other than the
owner whose centered AABB overlaps the pellet-scaled projectile AABB; the
damage draw consumes one PRNG step only when a hit is found. -/
def detectProjectileHit (p : Projectile) (entities : List Entity) (s : Nat) :
    Option HitResult × Nat :=
  let projectileAABB : AABB :=
    { x := p.position.x - p.pellets * (1/10), y := p.position.y - p.pellets * (1/10),
      w := p.pellets * (1/5), h := p.pellets * (1/5) }
  let rec go : List Entity → Option HitResult × Nat
    | [] => (none, s)
    | e :: rest =>
      if e.id = p.ownerId then go rest
      else if intersects projectileAABB
                { x := e.x - e.w / 2, y := e.y - e.h / 2, w := e.w, h := e.h } then
        let d := calculateDamage p e s
        (some { hit := true, entityId := some e.id, damage := some d.1,
                position := some p.position,
                isHeadshot := some (isHeadshot p.position e) }, d.2)
      else go rest
  go entities

/-- raycastVsEntity from sim/projectiles.ts.  The slab divisions are by the
ray direction components; JS produces signed infinities when a component is
zero, which the rational model cannot represent — the claims below never
evaluate this function concretely, and the determinism theorem is independent
of its values. -/
def raycastVsEntity (origin direction : Vec2) (e : Entity) (maxDistance : ℚ) :
    HitResult :=
  let ax := e.x - e.w / 2
  let ay := e.y - e.h / 2
  let t1 := (ax - origin.x) / direction.x
  let t2 := (ax + e.w - origin.x) / direction.x
  let t3 := (ay - origin.y) / direction.y
  let t4 := (ay + e.h - origin.y) / direction.y
  let tmin := max (min t1 t2) (min t3 t4)
  let tmax := min (max t1 t2) (max t3 t4)
  if tmax < 0 ∨ tmin > tmax ∨ tmin > maxDistance then { hit := false }
  else
    let hitPosition : Vec2 := ⟨origin.x + direction.x * tmin, origin.y + direction.y * tmin⟩
    { hit := true, entityId := some e.id, distance := some tmin,
      position := some hitPosition, isHeadshot := some (isHeadshot hitPosition e) }

/-- detectHitscanHit from sim/projectiles.ts: closest raycast hit over all
entities except the owner (no damage field is produced on this path). -/
def detectHitscanHit (p : Projectile) (entities : List Entity) :
    Option HitResult :=
  (entities.foldl
    (fun (acc : Option HitResult × ℚ × Bool) e =>
      if e.id = p.ownerId then acc
      else
        let r := raycastVsEntity p.position p.direction e p.range
        match r.hit, r.distance with
        | true, some d =>
          if acc.2.2 ∧ ¬ (d < acc.2.1) then acc else (some r, d, true)
        | _, _ => acc)
    (none, 0, false)).1

/-- simulateProjectile from sim/projectiles.ts: hitscan projectiles resolve
immediately and are consumed; physical projectiles integrate position, add the
travelled distance, decrement lifetime and test for an overlap hit. -/
def simulateProjectile (p : Projectile) (entities : List Entity) (dt : ℚ)
    (s : Nat) : Projectile × Option HitResult × Nat :=
  if p.isHitscan then
    ({ p with lifetime := 0 }, detectHitscanHit p entities, s)
  else
    let newX := p.position.x + p.direction.x * p.speed * dt
    let newY := p.position.y + p.direction.y * p.speed * dt
    let distanceMoved := sqrtQ ((newX - p.position.x)^2 + (newY - p.position.y)^2)
    let updated :=
      { p with position := ⟨newX, newY⟩,
               distanceTraveled := p.distanceTraveled + distanceMoved,
               lifetime := p.lifetime - 1 }
    let hit := detectProjectileHit updated entities s
    (updated, hit.1, hit.2)

/-- simulateProjectiles from sim/projectiles.ts: skip expired projectiles,
simulate the rest in order, collect hits, and keep only projectiles that are
still alive and within range. -/
def simulateProjectiles (ps : List Projectile) (entities : List Entity)
    (dt : ℚ) (s : Nat) : List Projectile × List HitResult × Nat :=
  let step := ps.foldl
    (fun (acc : List Projectile × List HitResult × Nat) p =>
      if p.lifetime ≤ 0 ∨ p.distanceTraveled ≥ p.range then acc
      else
        let r := simulateProjectile p entities dt acc.2.2
        let kept := if r.1.lifetime > 0 ∧ r.1.distanceTraveled < r.1.range then
            acc.1 ++ [r.1] else acc.1
        (kept, (match r.2.1 with
                | some h => acc.2.1 ++ [h]
                | none => acc.2.1), r.2.2))
    ([], [], s)
  step

/-- JS record assignment for input maps (overwrite in place or append). -/
def recordSetInput (m : InputMap) (k : String) (v : Input) : InputMap :=
  if m.any (fun p => p.1 = k) then
    m.map (fun p => if p.1 = k then (k, v) else p)
  else m ++ [(k, v)]

/-- World.mergeInputs: later maps override earlier ones for the same client
id; key enumeration order is JS insertion order. -/
def mergeInputs (maps : List InputMap) : InputMap :=
  maps.foldl (fun acc m => m.foldl (fun a kv => recordSetInput a kv.1 kv.2) acc) []

/-- The World object: committed state, tick rate, fixed dt, the PRNG state and
the private active projectile list. -/
structure World where
  state : State
  tickRate : ℚ
  dt : ℚ
  prng : Nat
  activeProjectiles : List Projectile
deriving DecidableEq, Repr

/-- The World constructor: uses the given state or a fresh one, creates the
PRNG from the seed, then either stores the PRNG state into the state (when the
state has no rng) or resumes the PRNG from the state's rng. -/
def mkWorld (state? : Option State) (tickRate : ℚ := 20)
    (seed : Option Nat := none) : World :=
  let st := state?.getD (createState 0 seed)
  let p0 := prngCreate seed
  match st.rng with
  | none =>
    { state := { st with rng := some p0 }, tickRate := tickRate,
      dt := 1 / tickRate, prng := p0, activeProjectiles := [] }
  | some r =>
    { state := st, tickRate := tickRate, dt := 1 / tickRate, prng := r,
      activeProjectiles := [] }

/-- createWorld(seed, opts) from sim/tick.ts. -/
def createWorld (seed : Option Nat) (tickRate : ℚ := 20) : World :=
  mkWorld (some (createState 0 seed)) tickRate seed

/-- World.handlePlayerShooting: resolve the aim direction from the input
movement vector (default straight up when stationary), fire if possible,
store the decremented inventory back on the shooter and enqueue the resulting
projectiles. -/
def handlePlayerShooting (shooter : Entity) (input : Input)
    (es : List Entity) (projAcc : List Projectile) (s : Nat) :
    List Entity × List Projectile × Nat :=
  match shooter.inventory with
  | none => (es, projAcc, s)
  | some inv =>
    match getActiveWeapon inv with
    | none => (es, projAcc, s)
    | some ws =>
      match WEAPON_CONFIGS ws.weaponId with
      | none => (es, projAcc, s)
      | some wc =>
        if canFireWeapon inv then
          let aim0 : Vec2 := if input.dx ≠ 0 ∨ input.dy ≠ 0 then ⟨input.dx, input.dy⟩
                             else ⟨0, -1⟩
          let m := sqrtQ (aim0.x * aim0.x + aim0.y * aim0.y)
          let mag := if m = 0 then 1 else m
          let aim : Vec2 := ⟨aim0.x / mag, aim0.y / mag⟩
          let r := fire ws wc shooter.id ⟨shooter.x, shooter.y⟩ aim s
          if r.1.success then
            (updateFirst (fun e => e.id = shooter.id ∧ e.type = EntityType.player)
               (fun e => { e with inventory := some (fireWeapon inv) }) es,
             projAcc ++ r.1.projectiles.map (fun pd => createProjectile pd r.2),
             r.2)
          else (es, projAcc, r.2)
        else (es, projAcc, s)

/-- World.handleWeaponCombat: update every player inventory's reload state,
then process shoot inputs in key order, each shooter looked up in the live
entity list. -/
def handleWeaponCombat (entities : List Entity) (inputs : InputMap) (s : Nat) :
    List Entity × List Projectile × Nat :=
  let es0 := entities.map (fun e =>
    if e.type = EntityType.player then
      match e.inventory with
      | some inv => { e with inventory := some (updateReload inv) }
      | none => e
    else e)
  inputs.foldl
    (fun (acc : List Entity × List Projectile × Nat) kv =>
      let (es, projAcc, st) := acc
      if bOr kv.2.shoot then
        match es.find? (fun e => e.id = kv.1 ∧ e.type = EntityType.player) with
        | some shooter =>
          if shooter.inventory.isSome then
            handlePlayerShooting shooter kv.2 es projAcc st
          else acc
        | none => acc
      else acc)
    (es0, [], s)

/-- World.handleProjectiles: simulate the active projectiles, apply the hp
damage of every hit that carries an entity id and a nonzero damage, and keep
only live in-range projectiles. -/
def handleProjectiles (entities : List Entity) (projectiles : List Projectile)
    (dt : ℚ) (s : Nat) : List Entity × List Projectile × Nat :=
  let r := simulateProjectiles projectiles entities dt s
  let es := r.2.1.foldl
    (fun es hit =>
      match hit.entityId, hit.damage with
      | some eid, some d =>
        if d ≠ 0 then
          updateFirst (fun e => e.id = eid)
            (fun e => { e with hp := max 0 (e.hp - (d : ℚ)) }) es
        else es
      | _, _ => es)
    entities
  (es, r.1.filter (fun p => p.lifetime > 0 ∧ p.distanceTraveled < p.range), r.2.2)

/-- All index pairs i < j of the player id list, in the loop order of the
pairwise collision resolution in World.tick. -/
def orderedPairs (l : List String) : List (String × String) :=
  (List.range l.length).flatMap (fun i =>
    (List.range l.length).filterMap (fun j =>
      if i < j then
        match l.get? i, l.get? j with
        | some a, some b => some (a, b)
        | _, _ => none
      else none))

/-- The pairwise player collision resolution of World.tick: for each pair of
players in array order, if their boxes intersect the minimal translation
vector is split symmetrically between them.  The source mutates the two
referenced entities; with the per-state unique ids this equals updating the
entities with those ids. -/
def resolvePlayerCollisions (entities : List Entity) : List Entity :=
  let pids := (entities.filter (fun e => e.type = EntityType.player)).map Entity.id
  (orderedPairs pids).foldl
    (fun es pq =>
      match es.find? (fun e => e.id = pq.1 ∧ e.type = EntityType.player),
            es.find? (fun e => e.id = pq.2 ∧ e.type = EntityType.player) with
      | some p1, some p2 =>
        let a : AABB := { x := p1.x, y := p1.y, w := p1.w, h := p1.h }
        let b : AABB := { x := p2.x, y := p2.y, w := p2.w, h := p2.h }
        if intersects a b then
          let mtv := resolve a b
          let es1 := updateFirst (fun e => e.id = pq.1 ∧ e.type = EntityType.player)
            (fun e => { e with x := e.x + mtv.1 / 2, y := e.y + mtv.2 / 2 }) es
          updateFirst (fun e => e.id = pq.2 ∧ e.type = EntityType.player)
            (fun e => { e with x := e.x - mtv.1 / 2, y := e.y - mtv.2 / 2 }) es1
        else es
      | _, _ => es)
    entities

/-- World.tick from sim/tick.ts, one full fixed timestep: merge inputs, apply
them shallowly, run the movement pass, the weapon-combat pass and the
projectile pass, resolve pairwise player collisions, advance the PRNG, attach
the checksum and commit.  The source line (this.state.rng = prng.getState())
writes into the old state object that the final commit discards, so the
committed state keeps the rng value cloned from the incoming state; the model
reproduces exactly that. -/
def World.tick (w : World) (inputs : List InputMap) : World :=
  let merged := mergeInputs inputs
  let next1 := applyInputsShallow w.state merged w.dt
  let next2 := processMovement next1 merged w.dt next1.tick w.prng
  let c := handleWeaponCombat next2.entities merged w.prng
  let pr := handleProjectiles c.1 (w.activeProjectiles ++ c.2.1) w.dt c.2.2
  let es := resolvePlayerCollisions pr.1
  let sFinal := xs32 pr.2.2
  let committed :=
    { next2 with entities := es,
                 lastChecksum := some (computeStateChecksum { next2 with entities := es }) }
  { w with state := committed, prng := sFinal, activeProjectiles := pr.2.1 }

/-- World.serialize: the compact snapshot of the committed state. -/
def World.serialize (w : World) : Snapshot :=
  serializeSnapshot w.state

/-- A full run: construct a world from the seed and feed it one tick call per
element of the input sequence. -/
def runWorld (seed : Option Nat) (ticks : List (List InputMap)) : World :=
  ticks.foldl World.tick (createWorld seed)

/-- SpawnPoint from match/match_types.ts. -/
structure SpawnPoint where
  id : String
  x : ℚ
  y : ℚ
  type : String
  team : Option Int := none
  radius : Option ℚ := none
deriving DecidableEq, Repr

/-- canSpawnAt from sim/spawn.ts: no player or item entity strictly within the
exclusion radius. -/
def canSpawnAt (entities : List Entity) (x y radius : ℚ) : Bool :=
  entities.all (fun e =>
    if e.type = EntityType.player ∨ e.type = EntityType.item then
      ¬ (sqrtQ ((e.x - x)^2 + (e.y - y)^2) < radius)
    else true)

/-- DefaultSpawnSystem.spawnPlayer from sim/spawn.ts: occupancy check by
radius only, then push a fresh bare player entity (no duplicate-id check). -/
def spawnSystemSpawnPlayer (st : State) (playerId : String) (sp : SpawnPoint) :
    State :=
  if canSpawnAt st.entities sp.x sp.y 1 then
    { st with entities := st.entities ++
        [{ id := playerId, type := EntityType.player, x := sp.x, y := sp.y,
           w := 1, h := 9/5, vx := 0, vy := 0, hp := 100,
           team := if sp.type = "team" then sp.team else none }] }
  else st

/-- The two arena spawn points generated by ArenaMode.generateSpawnPoints. -/
def arenaSpawnPoints : List SpawnPoint :=
  [⟨"team_0_spawn", 0, 0, "team", some 0, some 2⟩,
   ⟨"team_1_spawn", 100, 100, "team", some 1, some 2⟩]

/-- ArenaMode.initialize: store the spawn points and spawn the first two
configured players at opposite sides. -/
def arenaInitialize (players : List String) (st : State) : State :=
  match players, arenaSpawnPoints.get? 0, arenaSpawnPoints.get? 1 with
  | p0 :: p1 :: _, some sp0, some sp1 =>
    spawnSystemSpawnPlayer (spawnSystemSpawnPlayer st p0 sp0) p1 sp1
  | _, _, _ => st

/-- ArenaMode.onRoundStart: spawn every configured player through the spawn
system at the spawn point indexed by position modulo the spawn point count. -/
def arenaOnRoundStart (players : List String) (st : State) : State :=
  (players.enum).foldl
    (fun st p =>
      match arenaSpawnPoints.get? (p.1 % arenaSpawnPoints.length) with
      | some sp => spawnSystemSpawnPlayer st p.2 sp
      | none => st)
    st

/-- ArenaMode.getSpawnPoint: the spawn point indexed by the player's position
in the configured player list, when in range. -/
def arenaGetSpawnPoint (players : List String) (sps : List SpawnPoint)
    (pid : String) : Option SpawnPoint :=
  (players.indexOf? pid).bind (fun i => sps.get? i)

/-- MatchRunner.spawnPlayers: for every configured player with a spawn point,
push a full createPlayer entity into the world state unconditionally. -/
def matchSpawnPlayers (players : List String) (sps : List SpawnPoint)
    (st : State) : State :=
  players.foldl
    (fun st pid =>
      match arenaGetSpawnPoint players sps pid with
      | some sp => { st with entities := st.entities ++ [createPlayer pid sp.x sp.y] }
      | none => st)
    st

/-- The entity list reached at the first round start of an arena match: mode
initialization at match start, then the round-start hooks, then the runner's
own spawn pass, exactly the call sequence of MatchRunner.start and
runMatchLoop. -/
def matchFirstRoundState (players : List String) (seed : Nat) : State :=
  matchSpawnPlayers players arenaSpawnPoints
    (arenaOnRoundStart players
      (arenaInitialize players (createState 0 (some seed))))

instance : IsTotal QEntity qentLe :=
  ⟨fun a b => le_total a.id b.id⟩

instance : IsTrans QEntity qentLe :=
  ⟨fun _ _ _ hab hbc => le_trans hab hbc⟩

/-- The domain on which the snapshot round-trip is the identity: entities
well-formed per the section-3 data model whose fields the serializer actually
carries.  Items are excluded entirely (the deserializer has no item branch)
and players must carry no team (the serializer drops it). -/
def roundTripSafe (e : Entity) : Bool :=
  match e.type with
  | EntityType.player =>
    e.lifetime = none ∧ e.owner = none ∧ e.material = none ∧
    e.buildType = none ∧ e.rot = none ∧ e.editState = none ∧
    e.itemType = none ∧ e.respawnTime = none ∧ e.team = none
  | EntityType.bullet =>
    e.inventory = none ∧ e.material = none ∧ e.buildType = none ∧
    e.rot = none ∧ e.editState = none ∧ e.itemType = none ∧
    e.respawnTime = none ∧ e.team = none ∧ e.isCrouching = none ∧
    e.isSprinting = none ∧ e.onGround = none ∧ e.jumpState = none ∧
    e.fallStartY = none ∧ e.movementMomentum = none ∧ e.maxWalkSpeed = none ∧
    e.walkAccel = none ∧ e.airControlFactor = none ∧
    e.crouchSpeedMultiplier = none ∧ e.sprintSpeedMultiplier = none
  | EntityType.build_piece =>
    e.rot.isSome ∧ e.editState.isSome ∧ e.lifetime = none ∧
    e.inventory = none ∧ e.itemType = none ∧ e.respawnTime = none ∧
    e.team = none ∧ e.isCrouching = none ∧ e.isSprinting = none ∧
    e.onGround = none ∧ e.jumpState = none ∧ e.fallStartY = none ∧
    e.movementMomentum = none ∧ e.maxWalkSpeed = none ∧ e.walkAccel = none ∧
    e.airControlFactor = none ∧ e.crouchSpeedMultiplier = none ∧
    e.sprintSpeedMultiplier = none
  | EntityType.item => false

/-- Written from the spec's words, for comparison with isHeadshot: the upper
third of the target's centered bounding box, the band from y + h/6 up to
y + h/2. -/
def specUpperThirdBand (pos : Vec2) (e : Entity) : Prop :=
  e.y + e.h / 6 ≤ pos.y ∧ pos.y ≤ e.y + e.h / 2

instance (pos : Vec2) (e : Entity) : Decidable (specUpperThirdBand pos e) := by
  unfold specUpperThirdBand; infer_instance

/-- The multiplicative jitter factor the damage computation draws from the
PRNG at state s. -/
def specJitter (s : Nat) : ℚ :=
  1 + ((xs32 s : ℚ) / 4294967295 - 1/2) * (1/10)

/-- Base damage after the linear falloff beyond half range. -/
def specFalloffDamage (p : Projectile) : ℚ :=
  if p.distanceTraveled > p.range * (1/2) then
    p.damage * (1 - min 1 ((p.distanceTraveled - p.range * (1/2)) / (p.range * (1/2))))
  else p.damage

/-- Written from the amended spec wording: projectile damage with the headshot
multiplier applied exactly on the lower third of the target's centered
bounding box (the band from y - h/2 up to y - h/2 + h/3), the PRNG jitter,
rounded to an integer and floored at 1. -/
def specDamageLowerThird (p : Projectile) (e : Entity) (s : Nat) : Int :=
  max 1 (jsRound (specFalloffDamage p *
    (if e.y - e.h / 2 ≤ p.position.y ∧ p.position.y ≤ e.y - e.h / 2 + e.h / 3
     then p.headshotMultiplier else 1) * specJitter s))

/-- The starting snapshot state of the reconciliation counterexample: a single
airborne player at rest at height 10 with no inventory. -/
def reconSnapState : State :=
  { tick := 0, entities := [
      { id := "p1", type := EntityType.player, x := 0, y := 10, w := 1, h := 9/5,
        vx := 0, vy := 0, hp := 100,
        isCrouching := some false, isSprinting := some false,
        onGround := some false, jumpState := some {},
        movementMomentum := some 0, maxWalkSpeed := some 5, walkAccel := some 20,
        airControlFactor := some (3/10), crouchSpeedMultiplier := some (1/2),
        sprintSpeedMultiplier := some (9/5) }] }

/-- The single buffered input map of the reconciliation counterexample: the
player sends a zero movement vector. -/
def reconInputs : InputMap :=
  [("p1", { seq := 0, clientId := "p1", dx := 0, dy := 0 })]

/-- The live side of the reconciliation comparison: a World initialized from
the serialized snapshot, ticked once with the buffered input map. -/
def reconLiveWorld : World :=
  World.tick
    (mkWorld (some (deserializeSnapshot (serializeSnapshot reconSnapState))) 20 none)
    [reconInputs]

/-- The replay side of the reconciliation comparison. -/
def reconReplayState : State :=
  reconcile (serializeSnapshot reconSnapState) [reconInputs] 20

/-- The world of the rng-storage counterexample: seed 42, one tick with no
inputs. -/
def rngBugWorld : World :=
  World.tick (createWorld (some 42)) []

/-- A bare player entity at x used by the checksum quantization
counterexample. -/
def quantCexEntity (xv : ℚ) : Entity :=
  { id := "a", type := EntityType.player, x := xv, y := 0, w := 1, h := 2,
    vx := 0, vy := 0, hp := 100 }

/-- Checksum counterexample state with x = 0.0004. -/
def quantCexStateA : State :=
  { tick := 0, entities := [quantCexEntity (4/10000)], rng := some 7 }

/-- Checksum counterexample state with x = 0.0006: it differs from the first
by 0.0002 in x, below the 1/1000 quantization step. -/
def quantCexStateB : State :=
  { tick := 0, entities := [quantCexEntity (6/10000)], rng := some 7 }

/-- Two distinct-id entities for the permutation-invariance witness. -/
def permWitnessA : Entity := quantCexEntity 1
def permWitnessB : Entity :=
  { quantCexEntity 2 with id := "b" }

/-- A well-formed item entity per the section-3 data model, used by the
round-trip counterexample. -/
def itemCexEntity : Entity :=
  { id := "i1", type := EntityType.item, x := 3, y := 4, w := 1/2, h := 1/2,
    vx := 0, vy := 0, hp := 1, itemType := some "ammo",
    respawnTime := some 100 }

/-- The round-trip counterexample state. -/
def itemCexState : State :=
  { tick := 0, entities := [itemCexEntity] }

/-- A well-formed state (player without team, bullet, build piece) for the
round-trip witness. -/
def roundTripWitnessState : State :=
  { tick := 3, entities := [
      createPlayer "p1" 0 0,
      createBullet "b1" "p1" 1 2 3 4 60,
      { id := "w1", type := EntityType.build_piece, owner := some "p1",
        buildType := some "wall", material := some "wood",
        x := 10, y := 0, w := 2, h := 2, vx := 0, vy := 0, hp := 100,
        rot := some 0, editState := some 0 }] }

/-- The xorshift32 state whose successor is 0xffffffff, exhibited for the
nextFloat range counterexample; a PRNG constructed with this seed holds
exactly this state. -/
def floatCexSeed : Nat := 1584200935

/-- A player entity that has landed after a 30-unit fall (fall start height 30,
current height 0), for the fall-damage witness. -/
def fallWitnessEntity : Entity :=
  { createPlayer "p" 0 0 with fallStartY := some 30 }

/-- A player entity that has landed after a fall of exactly 10 units. -/
def fallThresholdEntity : Entity :=
  { createPlayer "p" 0 0 with fallStartY := some 10 }

/-- The target entity of the headshot-band counterexample: a player whose
centered bounding box spans heights -1.5 to 1.5. -/
def headshotCexTarget : Entity :=
  { id := "t", type := EntityType.player, x := 0, y := 0, w := 1, h := 3,
    vx := 0, vy := 0, hp := 100 }

/-- The projectile of the headshot-band counterexample, positioned at height 1,
inside the upper third (0.5 to 1.5) of the target's box. -/
def headshotCexProjectile : Projectile :=
  { id := "pr", weaponId := "sniper_bolt", ownerId := "s",
    position := ⟨0, 1⟩, direction := ⟨1, 0⟩, speed := 80, damage := 100,
    isHitscan := false, spread := 0, pellets := 1, range := 200,
    headshotMultiplier := 2, lifetime := 120, distanceTraveled := 0 }

/-- An airborne player with no recorded fall start, for the jump-only
fall-damage witness. -/
def noJumpFallEntity : Entity :=
  { createPlayer "p" 0 50 with onGround := some false, fallStartY := none }

theorem xorBound (a b : Nat) (ha : a < 4294967296) (hb : b < 4294967296) :
    Nat.xor a b < 4294967296 := by
  have h32 : (4294967296 : Nat) = 2 ^ 32 := by norm_num
  rw [h32] at ha hb ⊢
  exact Nat.xor_lt_two_pow ha hb

theorem xs32_lt (s : Nat) : xs32 s < 4294967296 := by
  unfold xs32
  have hm : ∀ n : Nat, n % 4294967296 < 4294967296 :=
    fun n => Nat.mod_lt _ (by norm_num)
  exact xorBound _ _
    (xorBound _ _
      (xorBound _ _ (hm s) (hm _))
      (lt_of_le_of_lt (Nat.div_le_self _ _) (xorBound _ _ (hm s) (hm _))))
    (hm _)

theorem xs32_le (s : Nat) : xs32 s ≤ 4294967295 :=
  Nat.lt_succ_iff.mp (xs32_lt s)

theorem nextFloat_nonneg (s : Nat) : 0 ≤ (prngNextFloat s).1 := by
  unfold prngNextFloat
  positivity

theorem nextFloat_le_one (s : Nat) : (prngNextFloat s).1 ≤ 1 := by
  unfold prngNextFloat
  rw [div_le_one (by norm_num)]
  exact_mod_cast xs32_le s

/-- C1 (confirmed).  Cross-run determinism: any two Worlds each constructed
with the same seed and stepped through the same prefix of an input sequence
via World.tick agree on the committed lastChecksum, the committed rng field
and the serialize() output after every tick.  The embedding makes the whole
tick pipeline an explicit pure function of the world value and the inputs —
every source of randomness is the seeded PRNG threaded through the state, and
no step consults a clock or any other ambient source — so equal constructions
remain equal forever. -/
theorem crossRunDeterminism (seed : Option Nat) (w1 w2 : World)
    (ticks : List (List InputMap)) (n : Nat)
    (h1 : w1 = createWorld seed) (h2 : w2 = createWorld seed) :
    ((ticks.take n).foldl World.tick w1).state.lastChecksum
        = ((ticks.take n).foldl World.tick w2).state.lastChecksum
      ∧ ((ticks.take n).foldl World.tick w1).state.rng
        = ((ticks.take n).foldl World.tick w2).state.rng
      ∧ ((ticks.take n).foldl World.tick w1).serialize
        = ((ticks.take n).foldl World.tick w2).serialize := by
  subst h1
  subst h2
  exact ⟨rfl, rfl, rfl⟩

theorem crossRunDeterminism_witness :
    ((([[reconInputs]] : List (List InputMap)).take 1).foldl World.tick
        (createWorld (some 5))).state.lastChecksum
      = ((([[reconInputs]] : List (List InputMap)).take 1).foldl World.tick
        (createWorld (some 5))).state.lastChecksum
  ∧ ((([[reconInputs]] : List (List InputMap)).take 1).foldl World.tick
        (createWorld (some 5))).state.rng
      = ((([[reconInputs]] : List (List InputMap)).take 1).foldl World.tick
        (createWorld (some 5))).state.rng
  ∧ ((([[reconInputs]] : List (List InputMap)).take 1).foldl World.tick
        (createWorld (some 5))).serialize
      = ((([[reconInputs]] : List (List InputMap)).take 1).foldl World.tick
        (createWorld (some 5))).serialize :=
  crossRunDeterminism (some 5) (createWorld (some 5)) (createWorld (some 5))
    [[reconInputs]] 1 rfl rfl

/-- C3 (code_bug).  After one World.tick on a world seeded with 42 and given
no inputs, the committed state's rng field still holds 42 — the value cloned
from the pre-tick state — while the World's PRNG has advanced to xs32 42; the
two disagree, because the source stores the PRNG state into the old state
object that the commit on the next line discards.  The claim (and the
source's own comment aside that store) expects the committed state to carry
the advanced PRNG state. -/
theorem committedRngStale :
    rngBugWorld.state.rng = some 42
  ∧ rngBugWorld.prng = xs32 42
  ∧ rngBugWorld.state.rng ≠ some rngBugWorld.prng := by
  refine ⟨by decide, by decide, by decide⟩

/-- C9 (code_bug).  At the first round start of a two-player arena match the
entity list already contains two entities with id p1 and two with id p2: the
mode's initialize hook spawns both players through the spawn system, and
MatchRunner.spawnPlayers then pushes a fresh createPlayer entity per player
unconditionally, so the unique-id invariant is violated on a state reachable
through the public match operations. -/
theorem duplicatePlayerIds :
    ((matchFirstRoundState ["p1", "p2"] 12345).entities.map Entity.id)
        = ["p1", "p2", "p1", "p2"]
  ∧ ¬ ((matchFirstRoundState ["p1", "p2"] 12345).entities.map Entity.id).Nodup := by
  refine ⟨by decide, by decide⟩

/-- C6 counterexample (corrected).  The xorshift32 state 1584200935 is reached
by constructing a PRNG with that seed, and from it nextFloat returns the next
unsigned value 0xffffffff divided by 0xffffffff — exactly 1, not strictly
below 1 as the claim requires. -/
theorem nextFloatReachesOne :
    prngCreate (some floatCexSeed) = floatCexSeed
  ∧ xs32 floatCexSeed = 4294967295
  ∧ (prngNextFloat floatCexSeed).1 = 1
  ∧ ¬ ((prngNextFloat floatCexSeed).1 < 1) := by
  refine ⟨by decide, by decide, by decide, by decide⟩

/-- C6 amended (corrected).  For every PRNG state, nextFloat returns a value
in the closed interval from 0 to 1: nonnegative and at most 1, with 1 attained
exactly when the produced 32-bit value is 0xffffffff. -/
theorem nextFloatRangeClosed (s : Nat) :
    0 ≤ (prngNextFloat s).1
  ∧ (prngNextFloat s).1 ≤ 1
  ∧ ((prngNextFloat s).1 = 1 ↔ xs32 s = 4294967295) := by
  refine ⟨nextFloat_nonneg s, nextFloat_le_one s, ?_⟩
  unfold prngNextFloat
  constructor
  · intro h
    have h' : (xs32 s : ℚ) = 4294967295 := by
      field_simp at h
      exact_mod_cast h
    exact_mod_cast h'
  · intro h
    rw [h]
    norm_num

/-- C7 (confirmed).  For a player entity that lands with a recorded fall-start
height f, computeFallDamage deals floor((d - 10) * 5) exactly when the fall
distance d = f - y exceeds 10 and zero otherwise, applies it directly to hp
clamped at 0, clears the recorded height, and a second call on the result is a
no-op — the damage is computed exactly once per landing. -/
theorem fallDamageFormula (e : Entity) (f : ℚ)
    (hg : e.onGround = some true) (hf : e.fallStartY = some f) :
    (computeFallDamage e).1
        = (if f - e.y > 10 then jsFloor ((f - e.y - 10) * 5) else 0)
  ∧ (computeFallDamage e).2.hp
        = (if f - e.y > 10 then max 0 (e.hp - (jsFloor ((f - e.y - 10) * 5) : ℚ))
           else e.hp)
  ∧ (computeFallDamage e).2.fallStartY = none
  ∧ computeFallDamage (computeFallDamage e).2 = (0, (computeFallDamage e).2) := by
  have hcond : ¬ (¬ bOr e.onGround = true ∨ e.fallStartY = none) := by
    simp [hg, hf, bOr]
  by_cases hd : f - e.y ≤ 10
  · have hng : ¬ (f - e.y > 10) := not_lt.mpr hd
    refine ⟨?_, ?_, ?_, ?_⟩ <;>
      simp [computeFallDamage, hcond, hg, hf, bOr, hd, hng]
  · have hgt : f - e.y > 10 := not_le.mp hd
    have hnd : ¬ (f - e.y ≤ 10) := hd
    refine ⟨?_, ?_, ?_, ?_⟩ <;>
      simp [computeFallDamage, hcond, hg, hf, bOr, hnd, hgt]

theorem fallDamageFormula_witness :
    (computeFallDamage fallWitnessEntity).1 = 100
  ∧ (computeFallDamage fallThresholdEntity).1 = 0 := by
  constructor
  · have h := fallDamageFormula fallWitnessEntity 30 rfl rfl
    rw [h.1]
    decide
  · have h := fallDamageFormula fallThresholdEntity 10 rfl rfl
    rw [h.1]
    decide

theorem applyCrouchSlide_fallStartY (e : Entity) (i : Input) (dt : ℚ) :
    (applyCrouchSlide e i dt).fallStartY = e.fallStartY := by
  unfold applyCrouchSlide
  dsimp only
  split_ifs <;> rfl

theorem applyCrouchSlide_hp (e : Entity) (i : Input) (dt : ℚ) :
    (applyCrouchSlide e i dt).hp = e.hp := by
  unfold applyCrouchSlide
  dsimp only
  split_ifs <;> rfl

theorem applyGroundMovement_fallStartY (e : Entity) (i : Input) (dt : ℚ)
    (prng : Nat) : (applyGroundMovement e i dt prng).fallStartY = e.fallStartY := by
  unfold applyGroundMovement
  dsimp only
  split_ifs <;> rfl

theorem applyGroundMovement_hp (e : Entity) (i : Input) (dt : ℚ) (prng : Nat) :
    (applyGroundMovement e i dt prng).hp = e.hp := by
  unfold applyGroundMovement
  dsimp only
  split_ifs <;> rfl

theorem applyAirMovement_fallStartY (e : Entity) (i : Input) (dt : ℚ) :
    (applyAirMovement e i dt).fallStartY = e.fallStartY := by
  unfold applyAirMovement
  dsimp only
  split_ifs <;> rfl

theorem applyAirMovement_hp (e : Entity) (i : Input) (dt : ℚ) :
    (applyAirMovement e i dt).hp = e.hp := by
  unfold applyAirMovement
  dsimp only
  split_ifs <;> rfl

theorem applyGravity_fallStartY (e : Entity) (dt : ℚ) (ground : List Entity) :
    (applyGravity e dt ground).fallStartY = e.fallStartY := by
  unfold applyGravity
  dsimp only
  split_ifs <;> rfl

theorem applyGravity_hp (e : Entity) (dt : ℚ) (ground : List Entity) :
    (applyGravity e dt ground).hp = e.hp := by
  unfold applyGravity
  dsimp only
  split_ifs <;> rfl

theorem jump_fallStartY_noJump (e : Entity) (i : Input) (wt : Int)
    (hj : bOr i.jump = false) : (jump e i wt).fallStartY = e.fallStartY := by
  unfold jump
  rw [hj]
  simp

theorem jump_hp (e : Entity) (i : Input) (wt : Int) :
    (jump e i wt).hp = e.hp := by
  unfold jump
  split_ifs <;> rfl

theorem computeFallDamage_noRecord (e : Entity) (h : e.fallStartY = none) :
    computeFallDamage e = (0, e) := by
  unfold computeFallDamage
  simp [h]

/-- C10 (confirmed).  Only jump records a fall-start height: every other
movement operation leaves fallStartY unchanged, and jump itself leaves it
unchanged when the jump input is not pressed.  Hence a player that is airborne
without having jumped (fallStartY absent) goes through the whole per-entity
movement pipeline — any fall height included — with hp unchanged and
fallStartY still absent, and computeFallDamage on the result returns zero
damage and changes nothing. -/
theorem noFallDamageWithoutJump (e : Entity) (input : Input) (dt : ℚ)
    (wt : Int) (prng : Nat) (ground : List Entity)
    (hj : bOr input.jump = false) (hf : e.fallStartY = none) :
    (processEntityMovement e input dt wt prng ground).fallStartY = none
  ∧ (processEntityMovement e input dt wt prng ground).hp = e.hp
  ∧ computeFallDamage (processEntityMovement e input dt wt prng ground)
      = (0, processEntityMovement e input dt wt prng ground)
  ∧ (applyCrouchSlide e input dt).fallStartY = e.fallStartY
  ∧ (applyGroundMovement e input dt prng).fallStartY = e.fallStartY
  ∧ (applyAirMovement e input dt).fallStartY = e.fallStartY
  ∧ (applyGravity e dt ground).fallStartY = e.fallStartY
  ∧ (jump e input wt).fallStartY = e.fallStartY := by
  by_cases ht : e.type ≠ EntityType.player
  · have hpe : processEntityMovement e input dt wt prng ground = e := by
      unfold processEntityMovement
      rw [if_pos ht]
    refine ⟨?_, ?_, ?_, applyCrouchSlide_fallStartY e input dt,
      applyGroundMovement_fallStartY e input dt prng,
      applyAirMovement_fallStartY e input dt,
      applyGravity_fallStartY e dt ground,
      jump_fallStartY_noJump e input wt hj⟩
    · rw [hpe]; exact hf
    · rw [hpe]
    · rw [hpe]; exact computeFallDamage_noRecord e hf
  · have hpe : processEntityMovement e input dt wt prng ground
        = (computeFallDamage
            (applyGravity
              (if bOr (jump (applyCrouchSlide e input dt) input wt).onGround then
                 applyGroundMovement (jump (applyCrouchSlide e input dt) input wt)
                   input dt prng
               else
                 applyAirMovement (jump (applyCrouchSlide e input dt) input wt)
                   input dt)
              dt ground)).2 := by
      unfold processEntityMovement
      rw [if_neg ht]
    set e1 := applyCrouchSlide e input dt with he1
    set e2 := jump e1 input wt with he2
    set e3 := if bOr e2.onGround then applyGroundMovement e2 input dt prng
              else applyAirMovement e2 input dt with he3
    set e4 := applyGravity e3 dt ground with he4
    have h1 : e1.fallStartY = none := by
      rw [he1, applyCrouchSlide_fallStartY]; exact hf
    have h2 : e2.fallStartY = none := by
      rw [he2, jump_fallStartY_noJump e1 input wt hj]; exact h1
    have h3 : e3.fallStartY = none := by
      rw [he3]
      split_ifs
      · rw [applyGroundMovement_fallStartY]; exact h2
      · rw [applyAirMovement_fallStartY]; exact h2
    have h4 : e4.fallStartY = none := by
      rw [he4, applyGravity_fallStartY]; exact h3
    have hp1 : e1.hp = e.hp := by rw [he1]; exact applyCrouchSlide_hp e input dt
    have hp2 : e2.hp = e.hp := by rw [he2, jump_hp]; exact hp1
    have hp3 : e3.hp = e.hp := by
      rw [he3]
      split_ifs
      · rw [applyGroundMovement_hp]; exact hp2
      · rw [applyAirMovement_hp]; exact hp2
    have hp4 : e4.hp = e.hp := by rw [he4, applyGravity_hp]; exact hp3
    have hfin : processEntityMovement e input dt wt prng ground = e4 := by
      rw [hpe, computeFallDamage_noRecord _ h4]
    refine ⟨?_, ?_, ?_, applyCrouchSlide_fallStartY e input dt,
      applyGroundMovement_fallStartY e input dt prng,
      applyAirMovement_fallStartY e input dt,
      applyGravity_fallStartY e dt ground,
      jump_fallStartY_noJump e input wt hj⟩
    · rw [hfin]; exact h4
    · rw [hfin]; exact hp4
    · rw [hfin]; exact computeFallDamage_noRecord e4 h4

theorem noFallDamageWithoutJump_witness :
    (processEntityMovement noJumpFallEntity (defaultInput "p") (1/20) 1 42 []).hp
        = noJumpFallEntity.hp
  ∧ computeFallDamage
        (processEntityMovement noJumpFallEntity (defaultInput "p") (1/20) 1 42 [])
      = (0, processEntityMovement noJumpFallEntity (defaultInput "p") (1/20) 1 42 []) := by
  have h := noFallDamageWithoutJump noJumpFallEntity (defaultInput "p") (1/20) 1 42 []
    (by decide) rfl
  exact ⟨h.2.1, h.2.2.1⟩

theorem isHeadshot_iff (pos : Vec2) (e : Entity) :
    isHeadshot pos e = true
      ↔ (e.y - e.h / 2 ≤ pos.y ∧ pos.y ≤ e.y - e.h / 2 + e.h / 3) := by
  unfold isHeadshot
  dsimp only
  rw [decide_eq_true_eq]

/-- C8 counterexample (corrected).  A hit point at height 1 on a target whose
centered box spans heights -1.5 to 1.5 lies in the upper third of the box
(0.5 to 1.5), yet isHeadshot rejects it and calculateDamage computes the
jittered base damage without the headshot multiplier — a value different from
the multiplied one — because the code tests the band that starts at the
bottom of the box. -/
theorem headshotBandInverted :
    specUpperThirdBand headshotCexProjectile.position headshotCexTarget
  ∧ isHeadshot headshotCexProjectile.position headshotCexTarget = false
  ∧ (calculateDamage headshotCexProjectile headshotCexTarget 1).1
      = max 1 (jsRound (100 * specJitter 1))
  ∧ max 1 (jsRound (100 * specJitter 1))
      ≠ max 1 (jsRound ((100 * 2) * specJitter 1)) := by
  refine ⟨by decide, by decide, by decide, by decide⟩

/-- C8 amended (corrected).  The headshot multiplier is applied exactly when
the hit point falls in the LOWER third of the target's centered bounding box
(the band from y - h/2 up to y - h/2 + h/3); the jitter factor drawn from the
PRNG lies within ±5% of 1; and the final damage is the rounded jittered value
floored at 1, as computed by specDamageLowerThird. -/
theorem damageLowerThirdCharacterization (p : Projectile) (e : Entity) (s : Nat) :
    (isHeadshot p.position e = true
      ↔ (e.y - e.h / 2 ≤ p.position.y ∧ p.position.y ≤ e.y - e.h / 2 + e.h / 3))
  ∧ (calculateDamage p e s).1 = specDamageLowerThird p e s
  ∧ (19/20 : ℚ) ≤ specJitter s ∧ specJitter s ≤ 21/20 := by
  have hu0 : (0 : ℚ) ≤ (xs32 s : ℚ) / 4294967295 := by positivity
  have hu1 : (xs32 s : ℚ) / 4294967295 ≤ 1 := by
    rw [div_le_one (by norm_num)]
    exact_mod_cast xs32_le s
  refine ⟨isHeadshot_iff p.position e, ?_, ?_, ?_⟩
  · unfold calculateDamage specDamageLowerThird specFalloffDamage specJitter
      prngNextFloat
    dsimp only
    by_cases hh : (e.y - e.h / 2 ≤ p.position.y ∧ p.position.y ≤ e.y - e.h / 2 + e.h / 3)
    · have hb : isHeadshot p.position e = true := (isHeadshot_iff _ _).mpr hh
      rw [hb, if_pos hh]
      simp
    · have hb : isHeadshot p.position e = false := by
        rcases Bool.eq_false_or_eq_true (isHeadshot p.position e) with h | h
        · exact absurd ((isHeadshot_iff _ _).mp h) hh
        · exact h
      rw [hb, if_neg hh]
      simp [mul_one]
  · unfold specJitter
    nlinarith [hu0]
  · unfold specJitter
    nlinarith [hu1]

theorem sorted_strict_of_nodup (l : List QEntity)
    (hs : List.Sorted qentLe l) (hn : (l.map QEntity.id).Nodup) :
    List.Sorted (fun a b : QEntity => a.id < b.id) l := by
  have hne : List.Pairwise (fun a b : QEntity => a.id ≠ b.id) l :=
    List.pairwise_map.mp hn
  exact (hs.and hne).imp (fun h => lt_of_le_of_ne h.1 h.2)

theorem insertionSortById_eq_of_perm (l₁ l₂ : List QEntity)
    (hp : List.Perm l₁ l₂) (hn : (l₁.map QEntity.id).Nodup) :
    List.insertionSort qentLe l₁ = List.insertionSort qentLe l₂ := by
  haveI : IsAntisymm QEntity (fun a b : QEntity => a.id < b.id) :=
    ⟨fun _ _ h1 h2 => absurd h1 (lt_asymm h2)⟩
  have hn₂ : (l₂.map QEntity.id).Nodup := ((hp.map QEntity.id).nodup_iff).mp hn
  have hns₁ : ((List.insertionSort qentLe l₁).map QEntity.id).Nodup :=
    (((List.perm_insertionSort qentLe l₁).map QEntity.id).nodup_iff).mpr hn
  have hns₂ : ((List.insertionSort qentLe l₂).map QEntity.id).Nodup :=
    (((List.perm_insertionSort qentLe l₂).map QEntity.id).nodup_iff).mpr hn₂
  have hperm : List.Perm (List.insertionSort qentLe l₁) (List.insertionSort qentLe l₂) :=
    (List.perm_insertionSort qentLe l₁).trans
      (hp.trans (List.perm_insertionSort qentLe l₂).symm)
  exact List.eq_of_perm_of_sorted hperm
    (sorted_strict_of_nodup _ (List.sorted_insertionSort qentLe l₁) hns₁)
    (sorted_strict_of_nodup _ (List.sorted_insertionSort qentLe l₂) hns₂)

/-- C4 amended (corrected).  For a State whose entity ids are pairwise
distinct, every permutation of the entities array yields the same checksum:
quantization is per-entity and the quantized records are sorted by id before
canonicalization and hashing. -/
theorem checksumPermutationInvariant (s : State) (es' : List Entity)
    (hp : List.Perm s.entities es')
    (hn : (s.entities.map Entity.id).Nodup) :
    computeStateChecksum { s with entities := es' } = computeStateChecksum s := by
  have hq : createQuantizedSnapshot es' = createQuantizedSnapshot s.entities := by
    unfold createQuantizedSnapshot
    apply insertionSortById_eq_of_perm
    · exact (hp.map quantizeEntity).symm
    · have hn' : (es'.map Entity.id).Nodup := ((hp.map Entity.id).nodup_iff).mp hn
      rw [List.map_map]
      exact hn'
  unfold computeStateChecksum
  rw [hq]

theorem checksumPermutationInvariant_witness :
    computeStateChecksum
        { tick := 0, entities := [permWitnessB, permWitnessA], rng := some 7 }
      = computeStateChecksum
        { tick := 0, entities := [permWitnessA, permWitnessB], rng := some 7 } :=
  checksumPermutationInvariant
    { tick := 0, entities := [permWitnessA, permWitnessB], rng := some 7 }
    [permWitnessB, permWitnessA] (by decide) (by decide)

set_option maxRecDepth 4000 in
/-- C4 counterexample (corrected).  Two States that differ only in one entity's
x coordinate by 0.0002 — float noise below the 1/1000 quantization step —
cross a rounding boundary of round(1000 x) (0.4 rounds to 0, 0.6 rounds to 1)
and therefore hash to different checksum strings, so the claim's
noise-insensitivity part is false as stated. -/
theorem quantizationNoiseChangesChecksum :
    |(quantCexEntity (4/10000)).x - (quantCexEntity (6/10000)).x| < 1/1000
  ∧ quantizeValue ((quantCexEntity (4/10000)).x) = 0
  ∧ quantizeValue ((quantCexEntity (6/10000)).x) = 1
  ∧ computeStateChecksum quantCexStateA ≠ computeStateChecksum quantCexStateB := by
  refine ⟨by decide, by decide, by decide, by decide⟩

theorem deserialize_serialize_entity (e : Entity) (h : roundTripSafe e = true) :
    deserializeEntity (serializeEntity e) = e := by
  cases e with
  | mk id ty x y w h' vx vy hp lifetime owner inventory material buildType rot
      editState itemType respawnTime team isCrouching isSprinting onGround
      jumpState fallStartY movementMomentum maxWalkSpeed walkAccel
      airControlFactor crouchSpeedMultiplier sprintSpeedMultiplier =>
    cases ty with
    | player =>
      simp only [roundTripSafe, decide_eq_true_eq] at h
      obtain ⟨h1, h2, h3, h4, h5, h6, h7, h8, h9⟩ := h
      subst h1 h2 h3 h4 h5 h6 h7 h8 h9
      simp [serializeEntity, deserializeEntity]
    | bullet =>
      simp only [roundTripSafe, decide_eq_true_eq] at h
      obtain ⟨h1, h2, h3, h4, h5, h6, h7, h8, h9, h10, h11, h12, h13, h14, h15,
        h16, h17, h18, h19⟩ := h
      subst h1 h2 h3 h4 h5 h6 h7 h8 h9 h10 h11 h12 h13 h14 h15 h16 h17 h18 h19
      simp [serializeEntity, deserializeEntity]
    | build_piece =>
      simp only [roundTripSafe, decide_eq_true_eq] at h
      obtain ⟨hr, he, h3, h4, h5, h6, h7, h8, h9, h10, h11, h12, h13, h14, h15,
        h16, h17, h18⟩ := h
      subst h3 h4 h5 h6 h7 h8 h9 h10 h11 h12 h13 h14 h15 h16 h17 h18
      obtain ⟨r, hr'⟩ := Option.isSome_iff_exists.mp hr
      obtain ⟨k, hk'⟩ := Option.isSome_iff_exists.mp he
      subst hr' hk'
      simp [serializeEntity, deserializeEntity, qOr]
      exact fun h0 => h0.symm
    | item =>
      simp [roundTripSafe] at h

theorem map_roundTrip_id (l : List Entity) (h : l.all roundTripSafe = true) :
    l.map (fun e => deserializeEntity (serializeEntity e)) = l := by
  induction l with
  | nil => rfl
  | cons e t ih =>
    rw [List.all_cons, Bool.and_eq_true] at h
    simp [deserialize_serialize_entity e h.1, ih h.2]

/-- C5 amended (corrected).  For a State whose entities are well-formed per
the section-3 data model, contain no item entity, and whose players carry no
team, the snapshot round-trip reproduces the tick and every entity with all
its fields unchanged. -/
theorem snapshotRoundTrip (s : State) (h : s.entities.all roundTripSafe = true) :
    deserializeSnapshot (serializeSnapshot s)
      = { tick := s.tick, entities := s.entities } := by
  unfold serializeSnapshot deserializeSnapshot
  simp only [List.map_map]
  have : (s.entities.map (deserializeEntity ∘ serializeEntity)) = s.entities := by
    rw [show (deserializeEntity ∘ serializeEntity)
          = fun e => deserializeEntity (serializeEntity e) from rfl]
    exact map_roundTrip_id s.entities h
  rw [this]

theorem snapshotRoundTrip_witness :
    deserializeSnapshot (serializeSnapshot roundTripWitnessState)
      = { tick := roundTripWitnessState.tick,
          entities := roundTripWitnessState.entities } :=
  snapshotRoundTrip roundTripWitnessState (by decide)

/-- C5 counterexample (corrected).  A State holding a single well-formed item
entity (with itemType and respawnTime) does not survive the round-trip: the
serializer drops itemType and respawnTime entirely, and the deserializer has
no item branch, so the entity comes back as a player; a player's team is
likewise dropped. -/
theorem itemRoundTripBroken :
    ((deserializeSnapshot (serializeSnapshot itemCexState)).entities.map
        Entity.type) = [EntityType.player]
  ∧ ((deserializeSnapshot (serializeSnapshot itemCexState)).entities.map
        Entity.itemType) = [none]
  ∧ ((deserializeSnapshot (serializeSnapshot itemCexState)).entities.map
        Entity.respawnTime) = [none]
  ∧ deserializeSnapshot (serializeSnapshot itemCexState)
      ≠ { tick := itemCexState.tick, entities := itemCexState.entities }
  ∧ (deserializeEntity (serializeEntity
        { createPlayer "p" 0 0 with team := some 1 })).team = none := by
  refine ⟨by decide, by decide, by decide, by decide, by decide⟩

set_option maxRecDepth 4000 in
/-- C2 (code_bug).  Reconciliation does not reproduce the live tick: from a
snapshot holding one airborne player at rest at height 10, one buffered
zero-movement input map replayed through reconcile leaves the player at
height 10 with zero velocity, while a live World initialized from the same
snapshot and ticked once with the same input map runs the full movement pass
(gravity included) and commits height 9.9 with vertical velocity -1 — the two
serialized states are not identical, although the spec and the repository's
own reconciliation test demand byte-identical output. -/
theorem reconcileDivergesFromLiveTick :
    ((reconLiveWorld.serialize).entities.map (fun e => (e.y, e.vy)))
        = [(99/10, -1)]
  ∧ ((serializeSnapshot reconReplayState).entities.map (fun e => (e.y, e.vy)))
        = [(10, 0)]
  ∧ reconLiveWorld.serialize ≠ serializeSnapshot reconReplayState := by
  refine ⟨by decide, by decide, by decide⟩
